import Mathlib

/-!
# Verification of the search-stack resilient tool-call dispatcher

Shallow embedding of the `tikhub_call` dispatch logic that is duplicated
across the two hosts of the repository:

* `src/proxy/mcp-server.ts` (stdio tool server), `tikhub_call` handler
  together with its helpers `extractPlatform`, `extractKeyword`,
  `isEmptyData`, `fallbackWebSearch`;
* `src/plugin/index.ts` (in-process plugin host), `tikhub_call` execute
  together with its own copies of the same helpers.

JSON values are embedded as the inductive `Json` below.  JSON numbers are
modelled as integers: every number the dispatcher inspects (`result.code`,
counts, sizes) is integral, and no claim depends on non-integral numbers.
Network effects are modelled as oracles passed to the dispatcher: the
primary call's observable outcome is a `PrimaryOutcome`, the fallback
search's observable outcome an `Except Unit SearchData`.  The external
runtime functions `JSON.parse` and `JSON.stringify` are parameters
(`parse : String → Option Json`, `stringify : Json → String`); theorems
quantify over them, witnesses instantiate them with concrete functions.
-/

namespace SearchStack

/-- A JSON value.  Numbers are modelled as integers (see the header note). -/
inductive Json where
  | null
  | bool (b : Bool)
  | num (n : Int)
  | str (s : String)
  | arr (elems : List Json)
  | obj (kvs : List (String × Json))
deriving Repr

/-- First binding of key `k` in an object's member list, mirroring JavaScript
property access `obj[k]` (JS objects cannot carry duplicate keys, so taking
the first binding is faithful). -/
def lookupKey (k : String) : List (String × Json) → Option Json
  | [] => none
  | (k2, v) :: rest => if k2 = k then some v else lookupKey k rest

/-- JavaScript field access `v[k]`: a property lookup on an object; `undefined`
(modelled as `none`) on every other value (string/number indexing by these
fixed non-numeric keys also yields `undefined`). -/
def getField (v : Json) (k : String) : Option Json :=
  match v with
  | .obj kvs => lookupKey k kvs
  | _ => none

/-- The metadata keys of the nested-wrapper pattern in `isEmptyData`
(mcp-server.ts:442, index.ts:475). -/
def metaKeys : List String := ["code", "data", "message", "recordTime", "msg"]

/-- The conventional listing keys checked for empty arrays in `isEmptyData`
(mcp-server.ts:446, index.ts:479). -/
def listKeys : List String :=
  ["items", "item_list", "notes", "note_list", "list", "results", "video_list"]

mutual
/-- Transcription of `isEmptyData` restricted to proper JSON values
`isEmptyData` (mcp-server.ts:430-451 and the identical index.ts:466-497):
`null` is empty; an array is empty iff length 0; an object is empty iff it
has no keys, or its `data` member is recursively empty and every key is
metadata, or one of the conventional listing keys holds an empty array;
strings, numbers and booleans are never empty.  The source's
`"data" in obj && isEmptyData(obj.data)` is `emptyDataField kvs`
(see `emptyDataField_eq_lookup`). -/
def isEmptyJson : Json → Bool
  | .null => true
  | .bool _ => false
  | .num _ => false
  | .str _ => false
  | .arr xs => xs.isEmpty
  | .obj kvs =>
      kvs.isEmpty
      || (emptyDataField kvs && kvs.all (fun p => metaKeys.contains p.1))
      || listKeys.any (fun k =>
          match lookupKey k kvs with
          | some (.arr xs) => xs.isEmpty
          | _ => false)

/-- Source condition `"data" in obj && isEmptyData(obj.data)`: the object has a `data` member
and its (first) value is recursively empty. -/
def emptyDataField : List (String × Json) → Bool
  | [] => false
  | (k, v) :: rest => if k = "data" then isEmptyJson v else emptyDataField rest
end

/-- Transcription of `isEmptyData` on a possibly-absent value: JavaScript `undefined` is
`none`, and is empty, like `null` (mcp-server.ts:431). -/
def isEmptyData : Option Json → Bool
  | none => true
  | some v => isEmptyJson v

/-! ## The spec's recursive emptiness test

`SpecEmptyJ` is written from the words of the specification (spec §4.4,
"Recursive emptiness test"), independently of the transcription above:
`null` is empty; an ordered sequence is empty iff its length is 0; a
mapping is empty iff it has zero keys, or it has a `data` key whose value
is itself empty and every other key is one of
`{code, data, message, recordTime, msg}`, or it contains one of the keys
`{items, item_list, notes, note_list, list, results, video_list}` whose
value is an empty ordered sequence; every other value (including strings
and numbers) is not empty. -/

inductive SpecEmptyJ : Json → Prop where
  | null : SpecEmptyJ .null
  | emptyArr : SpecEmptyJ (.arr [])
  | emptyObj : SpecEmptyJ (.obj [])
  | dataWrapper {kvs : List (String × Json)} {v : Json} :
      lookupKey "data" kvs = some v → SpecEmptyJ v →
      (∀ p ∈ kvs, p.1 = "data" ∨ p.1 ∈ metaKeys) →
      SpecEmptyJ (.obj kvs)
  | listKey {kvs : List (String × Json)} {k : String} :
      k ∈ listKeys → lookupKey k kvs = some (.arr []) →
      SpecEmptyJ (.obj kvs)

/-- The spec's emptiness test on a possibly-absent value: `null`/absent is
empty. -/
def SpecEmpty : Option Json → Prop
  | none => True
  | some v => SpecEmptyJ v

/-! ## JavaScript value coercions used by the dispatcher -/

/-- JavaScript truthiness of a JSON value (`NaN` is not representable in
JSON, so the number case is just "nonzero"). -/
def jsTruthy : Json → Bool
  | .null => false
  | .bool b => b
  | .num n => n ≠ 0
  | .str s => s ≠ ""
  | .arr _ => true
  | .obj _ => true

/-- Truthiness of a possibly-absent value: `undefined` is falsy. -/
def jsTruthyOpt : Option Json → Bool
  | none => false
  | some v => jsTruthy v

mutual
/-- JavaScript `String(v)` / template-literal coercion of a JSON value:
strings pass through, numbers and booleans print, `null` prints `"null"`,
arrays join their elements with commas (`null` elements print empty),
plain objects print `"[object Object]"`. -/
def jsToString : Json → String
  | .null => "null"
  | .bool b => if b then "true" else "false"
  | .num n => toString n
  | .str s => s
  | .arr xs => jsArrToString xs
  | .obj _ => "[object Object]"

/-- JavaScript `Array.prototype.toString`: elements joined with `","`, where a `null`
element contributes the empty string. -/
def jsArrToString : List Json → String
  | [] => ""
  | [Json.null] => ""
  | [v] => jsToString v
  | Json.null :: rest => "," ++ jsArrToString rest
  | v :: rest => jsToString v ++ "," ++ jsArrToString rest
end

/-- Display of a possibly-absent value (only ever applied to present,
truthy values by the dispatcher). -/
def jsToStringOpt : Option Json → String
  | none => "undefined"
  | some v => jsToString v

/-! ## KeywordExtractor and PlatformLabeler -/

/-- The fixed key-priority list of `extractKeyword`
(mcp-server.ts:424, index.ts:460). -/
def keywordKeys : List String := ["keyword", "query", "search_keyword", "keywords"]

/-- Scan of the priority list: the first key whose value is a non-empty
string wins; a key whose value is missing, non-string, or the empty string
is skipped (JS: `typeof args[key] === "string" && args[key]`). -/
def extractKeywordFrom : List String → Json → Option String
  | [], _ => none
  | k :: rest, args =>
    match getField args k with
    | some (.str s) => if s = "" then extractKeywordFrom rest args else some s
    | _ => extractKeywordFrom rest args

/-- Transcription of `extractKeyword` (mcp-server.ts:422-428, index.ts:459-464).  The
argument is the normalized arguments value; on a non-object it finds
nothing, like JS property access on a non-object. -/
def extractKeyword (args : Json) : Option String :=
  extractKeywordFrom keywordKeys args

/-- The `PLATFORM_NAMES` table (mcp-server.ts:404-415, index.ts:441-452). -/
def platformNames : List (String × String) :=
  [("douyin", "抖音"), ("tiktok", "TikTok"), ("xiaohongshu", "小红书"),
   ("weibo", "微博"), ("bilibili", "B站"), ("instagram", "Instagram"),
   ("youtube", "YouTube"), ("twitter", "Twitter"), ("kuaishou", "快手"),
   ("reddit", "Reddit")]

/-- First association for a key in a plain string map. -/
def lookupStr (k : String) : List (String × String) → Option String
  | [] => none
  | (k2, v) :: rest => if k2 = k then some v else lookupStr k rest

/-- Transcription of `extractPlatform` (mcp-server.ts:417-420, index.ts:454-457):
`toolName.split("_")[0]` looked up in `PLATFORM_NAMES`. -/
def extractPlatform (toolName : String) : Option String :=
  lookupStr ((toolName.splitOn "_").headD toolName) platformNames

/-! ## ArgumentNormalizer

`normalizeArgs` transcribes the argument handling of both handlers
(mcp-server.ts:514-529, index.ts:582-594):

a pre-parsed object (including an array — JS `typeof` calls it "object")
passes through unchanged, anything else goes through
`JSON.parse((rawArgs as string) || "..empty object literal..")`, whose
`catch` is the fatal malformed-arguments error.

The input is `Option Json` (`none` is JS `undefined`); `parse` stands for
the runtime's `JSON.parse` on strings.  For a falsy non-object
(`undefined`, `null`, the empty string, `0`, `false`) the parsed text is
the empty-object literal, which always parses to the empty object; for a truthy
non-object non-string (number, `true`) `JSON.parse` coerces its argument
to its decimal/keyword spelling, which parses back to the same value.
`none` output means the `catch` branch: a fatal malformed-arguments
error. -/
def normalizeArgs (parse : String → Option Json) : Option Json → Option Json
  | some (.obj kvs) => some (.obj kvs)
  | some (.arr xs) => some (.arr xs)
  | some (.str s) => if s = "" then some (.obj []) else parse s
  | some .null => some (.obj [])
  | some (.bool b) => if b then some (.bool true) else some (.obj [])
  | some (.num n) => if n = 0 then some (.obj []) else some (.num n)
  | none => some (.obj [])

/-! ## Result rendering and truncation -/

/-- Truncation marker of the structured-result success branch
(mcp-server.ts:592, index.ts:645). -/
def truncTagLarge : String := "\n\n... (truncated, result too large)"

/-- Truncation marker of the unstructured-result branch
(mcp-server.ts:602, index.ts:659). -/
def truncTagRaw : String := "\n\n... (truncated)"

/-- Source line `if (text.length > 50000) text = text.slice(0, 50000) + marker`
(mcp-server.ts:591-593, index.ts:643-646). -/
def truncateLarge (s : String) : String :=
  if s.length > 50000 then s.take 50000 ++ truncTagLarge else s

/-- Same bound with the unstructured-branch marker
(mcp-server.ts:601-603, index.ts:658-660). -/
def truncateRaw (s : String) : String :=
  if s.length > 50000 then s.take 50000 ++ truncTagRaw else s

/-! ## FallbackSearchInvoker -/

/-- One result row of the generic search service's response. -/
structure SearchResult where
  title : String
  url : String
  snippet : Option String
  content : Option String
deriving Repr

/-- The generic search service's response body.  `results` is optional so
that the source's `!data.results` guard is expressible. -/
structure SearchData where
  query : String
  provider : String
  results : Option (List SearchResult)
deriving Repr

/-- The request body the fallback builds for `POST /search`
(mcp-server.ts:456-461, index.ts:505-510). -/
structure SearchRequest where
  query : String
  count : Nat
  enrich : Bool
  max_chars : Nat
deriving Repr

/-- Source query construction: the platform label, a space and the keyword
when a label exists, else only the keyword
(mcp-server.ts:454, index.ts:503). -/
def fallbackQueryString (keyword : String) (platform : Option String) : String :=
  match platform with
  | some p => p ++ " " ++ keyword
  | none => keyword

/-- The single request issued by `fallbackWebSearch`. -/
def fallbackRequest (keyword : String) (platform : Option String) : SearchRequest :=
  { query := fallbackQueryString keyword platform
    count := 5
    enrich := true
    max_chars := 5000 }

/-- The fallback marker line (mcp-server.ts:470, index.ts:524). -/
def fallbackMarker : String := "[TikHub 不可用，已自动回退到网页搜索]"

/-- JavaScript `lines.join` with a newline separator. -/
def joinLines : List String → String
  | [] => ""
  | [l] => l
  | l :: rest => l ++ "\n" ++ joinLines rest

/-- The per-result lines of the fallback rendering (mcp-server.ts:474-485,
index.ts:530-541): number, title, url, snippet when truthy, page-content
block when truthy, blank separator. -/
def renderResults : Nat → List SearchResult → List String
  | _, [] => []
  | i, r :: rest =>
    [toString (i + 1) ++ ". " ++ r.title, "   " ++ r.url]
    ++ (match r.snippet with
        | some s => if s = "" then [] else ["   " ++ s]
        | none => [])
    ++ (match r.content with
        | some c => if c = "" then [] else ["", "   --- Page Content ---", "   " ++ c]
        | none => [])
    ++ [""]
    ++ renderResults (i + 1) rest

/-- Transcription of `fallbackWebSearch` (mcp-server.ts:453-491, index.ts:499-547).  The
oracle `resp` is the observable outcome of the one `POST /search` request:
`.error ()` when the request throws or times out, `.ok data` when it
returns.  `none` is the source's `null` ("fallback unavailable"); the
whole body is inside `try \x7b ... \x7d catch \x7b return null \x7d`, so no
exception escapes. -/
def fallbackWebSearch (keyword : String) (platform : Option String)
    (resp : Except Unit SearchData) : Option String :=
  match resp with
  | .error _ => none
  | .ok data =>
    match data.results with
    | none => none
    | some rs =>
      if rs.isEmpty then none
      else
        some (joinLines
          ([fallbackMarker,
            "Search: \"" ++ data.query ++ "\" (" ++ toString rs.length
              ++ " results via " ++ data.provider ++ ")",
            ""] ++ renderResults 0 rs))

/-! ## OutcomeClassifier -/

/-- Observable outcome of the primary TikHub request
(`fetch(TIKHUB_URL, ...)` with `AbortSignal.timeout(25000)`):
a thrown network/timeout/JSON-parse error, a non-2xx HTTP status with a
body text, or a parsed JSON body. -/
inductive PrimaryOutcome where
  | thrown (msg : String)
  | httpError (status : Nat) (body : String)
  | ok (body : Json)
deriving Repr

/-- Result of the primary attempt: an early success return carrying the
rendered text, or `tikhubFailed = true` with `failReason`. -/
inductive PrimaryStep where
  | success (text : String)
  | failed (reason : String)
deriving Repr, DecidableEq

/-- Source condition `result && typeof result === "object"`: the `result` field is a
structured wrapper (a JS object — including arrays; `null` is typeof
"object" but falsy). -/
def structuredResult : Option Json → Bool
  | some (.obj _) => true
  | some (.arr _) => true
  | _ => false

/-- Source condition `code && code !== 200`: the code field is truthy and not strictly
equal to the number 200. -/
def codeIsFailure (code : Json) : Bool :=
  jsTruthy code &&
    !(match code with
      | .num n => n == 200
      | _ => false)

/-- Source template fragment: the message when truthy, else the literal
text `error`. -/
def messageOrError (message : Option Json) : String :=
  match message with
  | some v => if jsTruthy v then jsToString v else "error"
  | none => "error"

/-- The structured-result branch (mcp-server.ts:572-597, index.ts:629-655):
non-200 truthy code → upstream failure; empty `result.data` → empty-data
failure; otherwise success rendering `innerData ?? result`. -/
def structuredStep (stringify : Json → String) (toolName : String) (r : Json) :
    PrimaryStep :=
  let innerData := getField r "data"
  let codeFail :=
    match getField r "code" with
    | some c => codeIsFailure c
    | none => false
  if codeFail then
    .failed (toolName ++ " returned code "
      ++ jsToStringOpt (getField r "code") ++ ": "
      ++ messageOrError (getField r "message"))
  else if isEmptyData innerData then
    .failed (toolName ++ " returned empty data (platform anti-bot)")
  else
    let payload :=
      match innerData with
      | some Json.null => r
      | some v => v
      | none => r
    .success ("TikHub " ++ toolName ++ " result:\n\n"
      ++ truncateLarge (stringify payload))

/-- The whole primary attempt (the `try` block of both handlers,
mcp-server.ts:543-614 and index.ts:604-668): thrown errors and non-2xx
statuses are transport failures; a truthy top-level `error` string is a
failure with that value as reason; a structured `result` goes through
`structuredStep`; anything else is returned whole as a success (note: with
no emptiness check). -/
def primaryStep (stringify : Json → String) (toolName : String) :
    PrimaryOutcome → PrimaryStep
  | .thrown msg => .failed msg
  | .httpError status body =>
    .failed ("HTTP " ++ toString status ++ ": " ++ body.take 200)
  | .ok body =>
    if jsTruthyOpt (getField body "error") then
      .failed (jsToStringOpt (getField body "error"))
    else
      match getField body "result" with
      | some (.obj kvs) => structuredStep stringify toolName (.obj kvs)
      | some (.arr xs) => structuredStep stringify toolName (.arr xs)
      | _ => .success (truncateRaw (stringify body))

/-! ## ToolCallDispatcher

Each host's handler is transcribed separately (the source duplicates the
logic verbatim).  Besides its final result, each dispatcher returns the
ordered trace of its network-related events, so that ordering claims
("fallback never issued before the primary outcome is classified") are
expressible. -/

/-- Ordered observable events of one dispatch. -/
inductive Event where
  | primaryIssued
  | classified (failed : Bool) (reason : String)
  | fallbackIssued (query : String)
deriving Repr, DecidableEq

/-- Externally visible result of one dispatch.  `malformedArgs` is the
fatal "Invalid arguments JSON string" outcome (an `isError` return in the
stdio server, a thrown `Error` in the plugin host — same message either
way); `finalError` likewise covers the stdio server's `isError` return and
the plugin host's thrown `Error`. -/
inductive DispatchResult where
  | malformedArgs
  | primarySuccess (text : String)
  | fallbackSuccess (text : String)
  | finalError (msg : String)
deriving Repr, DecidableEq

/-- The tail of the stdio-server handler after `tikhubFailed` is set
(mcp-server.ts:616-637): fallback iff a keyword exists, then the combined
final message.  (The `"Unknown error"` arm of line 632 is unreachable:
every path into this tail has `tikhubFailed = true`.) -/
def mcpFinish (reason : String) (keyword : Option String)
    (platform : Option String) (fb : Except Unit SearchData)
    (pre : List Event) : DispatchResult × List Event :=
  match keyword with
  | some kw =>
    let ev := pre ++ [.fallbackIssued (fallbackQueryString kw platform)]
    match fallbackWebSearch kw platform fb with
    | some text =>
      (.fallbackSuccess ("TikHub 失败 (" ++ reason ++ ")，已自动回退到网页搜索:\n\n" ++ text), ev)
    | none =>
      (.finalError ("TikHub 失败: " ++ reason ++ "\n网页搜索回退也失败了。"), ev)
  | none =>
    (.finalError ("TikHub 失败: " ++ reason
      ++ "\n该工具没有 keyword 参数，无法自动回退到网页搜索。"), pre)

/-- The `tikhub_call` handler of the stdio tool server
(mcp-server.ts:514-638).  `keyConfigured` is whether `TIKHUB_API_KEY` is
non-empty; when it is empty the handler marks the call failed with reason
`"API key not configured"` without issuing the primary request. -/
def mcpDispatch (keyConfigured : Bool) (parse : String → Option Json)
    (stringify : Json → String) (toolName : String) (rawArgs : Option Json)
    (primary : PrimaryOutcome) (fb : Except Unit SearchData) :
    DispatchResult × List Event :=
  match normalizeArgs parse rawArgs with
  | none => (.malformedArgs, [])
  | some args =>
    let keyword := extractKeyword args
    let platform := extractPlatform toolName
    if keyConfigured then
      match primaryStep stringify toolName primary with
      | .success text =>
        (.primarySuccess text, [.primaryIssued, .classified false ""])
      | .failed reason =>
        mcpFinish reason keyword platform fb
          [.primaryIssued, .classified true reason]
    else
      mcpFinish "API key not configured" keyword platform fb
        [.classified true "API key not configured"]

/-- The tail of the plugin-host handler after `tikhubFailed` is set
(index.ts:670-690): identical strings to the stdio server's tail. -/
def pluginFinish (reason : String) (keyword : Option String)
    (platform : Option String) (fb : Except Unit SearchData)
    (pre : List Event) : DispatchResult × List Event :=
  match keyword with
  | some kw =>
    let ev := pre ++ [.fallbackIssued (fallbackQueryString kw platform)]
    match fallbackWebSearch kw platform fb with
    | some text =>
      (.fallbackSuccess ("TikHub 失败 (" ++ reason ++ ")，已自动回退到网页搜索:\n\n" ++ text), ev)
    | none =>
      (.finalError ("TikHub 失败: " ++ reason ++ "\n网页搜索回退也失败了。"), ev)
  | none =>
    (.finalError ("TikHub 失败: " ++ reason
      ++ "\n该工具没有 keyword 参数，无法自动回退到网页搜索。"), pre)

/-- The `tikhub_call` execute of the in-process plugin host
(index.ts:582-691).  The tool is only registered when `tikhubApiKey` is
configured, so there is no key check inside the handler. -/
def pluginDispatch (parse : String → Option Json) (stringify : Json → String)
    (toolName : String) (rawArgs : Option Json) (primary : PrimaryOutcome)
    (fb : Except Unit SearchData) : DispatchResult × List Event :=
  match normalizeArgs parse rawArgs with
  | none => (.malformedArgs, [])
  | some args =>
    let keyword := extractKeyword args
    let platform := extractPlatform toolName
    match primaryStep stringify toolName primary with
    | .success text =>
      (.primarySuccess text, [.primaryIssued, .classified false ""])
    | .failed reason =>
      pluginFinish reason keyword platform fb
        [.primaryIssued, .classified true reason]

/-! ## Timeout constants (spec §5)

The explicit timeouts attached to each network call in the source.  `none`
means the call carries no `AbortSignal` at all. -/

/-- Timeout `AbortSignal.timeout(25000)` on the primary TikHub fetch of the stdio
server (mcp-server.ts:555). -/
def mcpPrimaryTimeoutMs : Option Nat := some 25000

/-- Timeout `AbortSignal.timeout(25000)` on the primary TikHub fetch of the plugin
host (index.ts:612). -/
def pluginPrimaryTimeoutMs : Option Nat := some 25000

/-- The stdio server's `api` helper (mcp-server.ts:28-48) attaches no
`AbortSignal`, and `fallbackWebSearch` calls it (mcp-server.ts:456), so the
stdio server's fallback request has no explicit timeout. -/
def mcpFallbackTimeoutMs : Option Nat := none

/-- The plugin host's `apiCall` helper defaults `timeoutMs` to `28_000`
(index.ts:46) and its `fallbackWebSearch` calls it without a `timeoutMs`
argument (index.ts:505), so the plugin's fallback request times out after
28 seconds. -/
def pluginFallbackTimeoutMs : Option Nat := some 28000

/-! ## Derived notions used in the claim statements -/

/-- The trace contains a fallback request. -/
def fallbackInvoked (tr : List Event) : Prop :=
  ∃ q, Event.fallbackIssued q ∈ tr

/-- The trace contains a failure classification. -/
def classifiedFailure (tr : List Event) : Prop :=
  ∃ r, Event.classified true r ∈ tr

/-- A keyword is extractable from the normalized arguments. -/
def keywordAvailable (parse : String → Option Json) (rawArgs : Option Json) : Prop :=
  ∃ args kw, normalizeArgs parse rawArgs = some args ∧ extractKeyword args = some kw

/-- Every fallback request in the trace is preceded by a classification
event. -/
def fallbackAfterClassify (tr : List Event) : Prop :=
  ∀ (i : Nat) (q : String), tr[i]? = some (Event.fallbackIssued q) →
    ∃ (j : Nat) (f : Bool) (r : String),
      j < i ∧ tr[j]? = some (Event.classified f r)

/-- The normalized value is a plain key-to-value mapping. -/
def isMapping : Json → Bool
  | .obj _ => true
  | _ => false

/-! ## Concrete oracle instantiations for witnesses -/

/-- A parse oracle that rejects everything. -/
def parseNone : String → Option Json := fun _ => none

/-- A parse oracle agreeing with `JSON.parse` on the single quoted-string
input it accepts: `JSON.parse` of the five-character text `"abc"` is the
JavaScript string `abc`. -/
def parseQuotedAbc : String → Option Json :=
  fun s => if s = "\"abc\"" then some (.str "abc") else none

/-- A parse oracle agreeing with `JSON.parse` on the single object literal
it accepts. -/
def parseObjLit : String → Option Json :=
  fun s => if s = "\x7b\x7d" then some (.obj []) else none

/-- A constant stringify oracle. -/
def stringify0 : Json → String := fun _ => "S"

/-! ## Helper lemmas -/

theorem lookupKey_sizeOf {k : String} :
    ∀ {kvs : List (String × Json)} {v : Json},
      lookupKey k kvs = some v → sizeOf v < sizeOf kvs := by
  intro kvs
  induction kvs with
  | nil => intro v h; simp [lookupKey] at h
  | cons p rest ih =>
    intro v h
    obtain ⟨k2, v2⟩ := p
    simp only [lookupKey] at h
    by_cases hk : k2 = k
    · simp [hk] at h
      subst h
      simp only [List.cons.sizeOf_spec, Prod.mk.sizeOf_spec]
      omega
    · simp [hk] at h
      have := ih h
      simp only [List.cons.sizeOf_spec]
      omega

theorem emptyDataField_eq_lookup (kvs : List (String × Json)) :
    emptyDataField kvs =
      (match lookupKey "data" kvs with
       | some v => isEmptyJson v
       | none => false) := by
  induction kvs with
  | nil => rfl
  | cons p rest ih =>
    obtain ⟨k, v⟩ := p
    by_cases hk : k = "data" <;> simp [emptyDataField, lookupKey, hk, ih]

theorem contains_iff_mem {α : Type} [BEq α] [LawfulBEq α] {l : List α} {a : α} :
    l.contains a = true ↔ a ∈ l :=
  List.elem_iff

theorem isEmptyJson_obj (kvs : List (String × Json)) :
    isEmptyJson (.obj kvs) =
      (kvs.isEmpty
       || (emptyDataField kvs && kvs.all (fun p => metaKeys.contains p.1))
       || listKeys.any (fun k =>
           match lookupKey k kvs with
           | some (.arr xs) => xs.isEmpty
           | _ => false)) := by
  rw [isEmptyJson]

theorem isEmptyJson_iff_aux :
    ∀ n, ∀ v : Json, sizeOf v ≤ n → (isEmptyJson v = true ↔ SpecEmptyJ v) := by
  intro n
  induction n with
  | zero =>
    intro v hv
    cases v <;> simp_all
  | succ n ih =>
    intro v hv
    cases v with
    | null => simpa [isEmptyJson] using SpecEmptyJ.null
    | bool b =>
      simp only [isEmptyJson, Bool.false_eq_true, false_iff]
      intro h; cases h
    | num m =>
      simp only [isEmptyJson, Bool.false_eq_true, false_iff]
      intro h; cases h
    | str s =>
      simp only [isEmptyJson, Bool.false_eq_true, false_iff]
      intro h; cases h
    | arr xs =>
      simp only [isEmptyJson, List.isEmpty_iff]
      constructor
      · rintro rfl; exact .emptyArr
      · intro h; cases h; rfl
    | obj kvs =>
      have hk : sizeOf kvs ≤ n := by
        simp only [Json.obj.sizeOf_spec] at hv; omega
      rw [isEmptyJson_obj, emptyDataField_eq_lookup]
      constructor
      · intro h
        rcases Bool.or_eq_true_iff.mp h with h1 | h2
        · rcases Bool.or_eq_true_iff.mp h1 with he | hd
          · -- zero keys
            rw [List.isEmpty_iff] at he
            subst he; exact .emptyObj
          · -- data-wrapper pattern
            simp only [Bool.and_eq_true] at hd
            obtain ⟨hd1, hd2⟩ := hd
            rcases hl : lookupKey "data" kvs with _ | v
            · rw [hl] at hd1; simp at hd1
            · rw [hl] at hd1
              have hv' : sizeOf v ≤ n := by
                have := lookupKey_sizeOf hl; omega
              refine .dataWrapper hl ((ih v hv').mp hd1) ?_
              intro p hp
              right
              have := (List.all_eq_true.mp hd2) p hp
              exact contains_iff_mem.mp (by simpa using this)
        · -- listing-key pattern
          rcases List.any_eq_true.mp h2 with ⟨k, hkmem, hkv⟩
          rcases hl : lookupKey k kvs with _ | w
          · rw [hl] at hkv; simp at hkv
          · rw [hl] at hkv
            cases w with
            | arr xs =>
              rw [List.isEmpty_iff] at hkv
              subst hkv
              exact .listKey hkmem hl
            | null => simp at hkv
            | bool b => simp at hkv
            | num m => simp at hkv
            | str s => simp at hkv
            | obj kvs2 => simp at hkv
      · intro h
        cases h with
        | emptyObj => simp
        | @dataWrapper _ v hl hv' hkeys =>
          apply Bool.or_eq_true_iff.mpr; left
          apply Bool.or_eq_true_iff.mpr; right
          rw [hl]
          simp only [Bool.and_eq_true]
          constructor
          · have hsz : sizeOf v ≤ n := by
              have := lookupKey_sizeOf hl; omega
            exact (ih v hsz).mpr hv'
          · apply List.all_eq_true.mpr
            intro p hp
            apply contains_iff_mem.mpr
            rcases hkeys p hp with hd | hm
            · rw [hd]; simp [metaKeys]
            · exact hm
        | @listKey _ k hkmem hl =>
          apply Bool.or_eq_true_iff.mpr; right
          apply List.any_eq_true.mpr
          exact ⟨k, hkmem, by rw [hl]; simp⟩

theorem isEmptyJson_iff (v : Json) : isEmptyJson v = true ↔ SpecEmptyJ v :=
  isEmptyJson_iff_aux (sizeOf v) v (Nat.le_refl _)

theorem finish_agree (reason : String) (keyword : Option String)
    (platform : Option String) (fb : Except Unit SearchData)
    (pre : List Event) :
    mcpFinish reason keyword platform fb pre =
      pluginFinish reason keyword platform fb pre := rfl

/-- With the API key configured, the stdio server's handler and the plugin
host's handler are the same function of the same inputs. -/
theorem hosts_agree (parse : String → Option Json) (stringify : Json → String)
    (toolName : String) (rawArgs : Option Json) (primary : PrimaryOutcome)
    (fb : Except Unit SearchData) :
    mcpDispatch true parse stringify toolName rawArgs primary fb =
      pluginDispatch parse stringify toolName rawArgs primary fb := rfl

theorem joinLines_cons_cons (a b : String) (l : List String) :
    joinLines (a :: b :: l) = a ++ "\n" ++ joinLines (b :: l) := rfl

/-! ## C9 -/

/-- C9: for every tool name, arguments payload, remote response (and parse,
stringify and fallback oracles), the dispatch logic of the stdio tool
server and of the in-process plugin host produce identical results and
identical event traces — in particular the same success/failure
classification with the same reason strings and the same decision whether
to invoke the fallback search.  (Stated with the stdio server's API key
configured; the plugin host only registers the tool when its key is
configured.) -/
theorem hosts_equivalent (parse : String → Option Json)
    (stringify : Json → String) (toolName : String) (rawArgs : Option Json)
    (primary : PrimaryOutcome) (fb : Except Unit SearchData) :
    mcpDispatch true parse stringify toolName rawArgs primary fb =
      pluginDispatch parse stringify toolName rawArgs primary fb :=
  hosts_agree parse stringify toolName rawArgs primary fb

/-! ## C2 -/

/-- C2: the recursive emptiness test of the code agrees with the spec's
definition on every JSON-like value: null/absent is empty; an ordered
sequence is empty iff its length is 0; a mapping is empty iff it has zero
keys, or its `data` value is itself empty and every other key is metadata,
or a conventional listing key holds an empty sequence; every other value
(strings and numbers included) is not empty. -/
theorem isEmptyData_matches_spec (ov : Option Json) :
    isEmptyData ov = true ↔ SpecEmpty ov := by
  cases ov with
  | none => simp [isEmptyData, SpecEmpty]
  | some v => simpa [isEmptyData, SpecEmpty] using isEmptyJson_iff v

/-- Witness: a metadata-only wrapper around a null payload is empty. -/
theorem isEmptyData_matches_spec_witness :
    isEmptyData (some (.obj [("data", Json.null), ("code", Json.num 0)])) = true :=
  (isEmptyData_matches_spec _).mpr
    (SpecEmptyJ.dataWrapper (v := Json.null) rfl SpecEmptyJ.null
      (by intro p hp
          simp only [List.mem_cons, List.not_mem_nil, or_false] at hp
          rcases hp with h | h <;> subst h <;> simp [metaKeys]))

/-! ## C5 -/

/-- C5: argument normalization returns an object input unchanged; an
absent or empty-string input becomes the empty mapping; and any other
string the parse oracle rejects terminates the dispatch immediately with
the fatal malformed-arguments outcome, with an empty event trace — no
primary call and no fallback — in both hosts. -/
theorem argument_normalization_contract (parse : String → Option Json)
    (stringify : Json → String) (toolName : String)
    (primary : PrimaryOutcome) (fb : Except Unit SearchData)
    (kvs : List (String × Json)) (s : String) :
    normalizeArgs parse (some (.obj kvs)) = some (.obj kvs)
    ∧ normalizeArgs parse none = some (.obj [])
    ∧ normalizeArgs parse (some (.str "")) = some (.obj [])
    ∧ (s ≠ "" → parse s = none →
        pluginDispatch parse stringify toolName (some (.str s)) primary fb
          = (.malformedArgs, [])
        ∧ mcpDispatch true parse stringify toolName (some (.str s)) primary fb
          = (.malformedArgs, [])) := by
  refine ⟨rfl, rfl, rfl, fun hs hp => ?_⟩
  have hn : normalizeArgs parse (some (.str s)) = none := by
    simp [normalizeArgs, hs, hp]
  constructor
  · simp [pluginDispatch, hn]
  · simp [mcpDispatch, hn]

/-- Witness: the string `zzz` is rejected by the parse oracle and the
dispatch of either host fails fatally with no events. -/
theorem argument_normalization_contract_witness :
    pluginDispatch parseNone stringify0 "t" (some (.str "zzz"))
        (.thrown "boom") (.error ()) = (.malformedArgs, [])
    ∧ mcpDispatch true parseNone stringify0 "t" (some (.str "zzz"))
        (.thrown "boom") (.error ()) = (.malformedArgs, []) :=
  (argument_normalization_contract parseNone stringify0 "t"
    (.thrown "boom") (.error ()) [] "zzz").2.2.2 (by decide) rfl

/-! ## C7 -/

/-- C7 counterexample: the five-character string input `"abc"` (a quoted
JSON string) is accepted — `JSON.parse` succeeds on it — yet the
normalized arguments value is the raw string `abc`, not a key-to-value
mapping. -/
theorem normalized_args_not_mapping_cex :
    normalizeArgs parseQuotedAbc (some (.str "\"abc\"")) = some (.str "abc")
    ∧ isMapping (.str "abc") = false := by
  constructor
  · simp [normalizeArgs, parseQuotedAbc]
  · rfl

/-- C7 amended: the normalized value is a plain mapping whenever the raw
input is a mapping, is absent/null/the empty string, or is a string the
parse oracle turns into an object; a string parsing to a non-object JSON
value passes through as that (possibly non-mapping) value. -/
theorem normalized_args_mapping_cases (parse : String → Option Json)
    (kvs : List (String × Json)) (s : String) :
    (normalizeArgs parse (some (.obj kvs)) = some (.obj kvs)
      ∧ isMapping (.obj kvs) = true)
    ∧ (normalizeArgs parse none = some (.obj [])
      ∧ normalizeArgs parse (some .null) = some (.obj [])
      ∧ normalizeArgs parse (some (.str "")) = some (.obj [])
      ∧ isMapping (.obj []) = true)
    ∧ (s ≠ "" → ∀ kvs2, parse s = some (.obj kvs2) →
        normalizeArgs parse (some (.str s)) = some (.obj kvs2)) := by
  refine ⟨⟨rfl, rfl⟩, ⟨rfl, rfl, rfl, rfl⟩, fun hs kvs2 hp => ?_⟩
  simp [normalizeArgs, hs, hp]

/-- Witness: an empty-object literal string normalizes to the empty
mapping. -/
theorem normalized_args_mapping_cases_witness :
    normalizeArgs parseObjLit (some (.str "\x7b\x7d")) = some (.obj []) :=
  (normalized_args_mapping_cases parseObjLit [] "\x7b\x7d").2.2
    (by decide) [] rfl

/-! ## C6 -/

/-- C6 counterexample: the fallback search is not wrapped with a timeout
of at most 25 seconds — in the plugin host it uses the helper's 28-second
default, and in the stdio server it carries no timeout at all. -/
theorem fallback_timeout_cex :
    pluginFallbackTimeoutMs = some 28000
    ∧ ¬(28000 ≤ 25000)
    ∧ mcpFallbackTimeoutMs = none := by
  refine ⟨rfl, by decide, rfl⟩

/-- C6 amended: both hosts issue the primary remote call with an explicit
25-second timeout; the fallback search call has no explicit timeout in
the stdio server and a 28-second timeout in the plugin host. -/
theorem timeout_constants :
    mcpPrimaryTimeoutMs = some 25000
    ∧ pluginPrimaryTimeoutMs = some 25000
    ∧ mcpFallbackTimeoutMs = none
    ∧ pluginFallbackTimeoutMs = some 28000 :=
  ⟨rfl, rfl, rfl, rfl⟩

/-! ## C3 -/

/-- C3 counterexample: the empty object is a transport-complete response
with no top-level error and no `result` wrapper whose recursive emptiness
test holds, yet the classifier returns it as a success (the stringified
whole response) instead of the empty-data failure the claim requires. -/
theorem no_wrapper_skips_empty_test_cex :
    getField (.obj []) "error" = none
    ∧ getField (.obj []) "result" = none
    ∧ isEmptyData (some (.obj [])) = true
    ∧ primaryStep stringify0 "t" (.ok (.obj [])) = .success "S"
    ∧ primaryStep stringify0 "t" (.ok (.obj []))
        ≠ .failed ("t returned empty data (platform anti-bot)") := by
  refine ⟨rfl, rfl, rfl, rfl, by decide⟩

/-- C3 amended: for every remote response that completes at the transport
level with no truthy top-level error and no structured `result` wrapper,
the dispatcher returns the whole response, serialized and truncated, as a
success — the recursive emptiness test is not applied on this path. -/
theorem no_wrapper_returns_whole_response (stringify : Json → String)
    (toolName : String) (body : Json)
    (herr : jsTruthyOpt (getField body "error") = false)
    (hres : structuredResult (getField body "result") = false) :
    primaryStep stringify toolName (.ok body)
      = .success (truncateRaw (stringify body)) := by
  simp only [primaryStep]
  rw [herr]
  simp only [Bool.false_eq_true, if_false]
  rcases hr : getField body "result" with _ | v
  · rfl
  · cases v <;> simp_all [structuredResult]

/-- Witness: the classifier on the empty object response. -/
theorem no_wrapper_returns_whole_response_witness :
    primaryStep stringify0 "t" (.ok (.obj []))
      = .success (truncateRaw (stringify0 (.obj []))) :=
  no_wrapper_returns_whole_response stringify0 "t" (.obj []) rfl rfl

/-! ## C4 -/

/-- C4 counterexample: a response whose `result.code` is the number `0`
(present, numeric, and not 200) with a non-empty payload is classified as
a success, because `0` is falsy in the source's `code && code !== 200`
guard — contradicting the claim's "including 0". -/
theorem code_zero_not_failure_cex :
    getField (.obj [("code", Json.num 0), ("data", .obj [("x", Json.num 1)])])
        "code" = some (Json.num 0)
    ∧ (0 : Int) ≠ 200
    ∧ primaryStep stringify0 "t"
        (.ok (.obj [("result",
          .obj [("code", Json.num 0), ("data", .obj [("x", Json.num 1)])])]))
        = .success ("TikHub t result:\n\nS") := by
  refine ⟨rfl, by decide, rfl⟩

/-- C4 amended: for every remote response whose `result.code` is a truthy
(nonzero) number different from 200, classification is a failure whose
reason is exactly `toolName returned code <code>: <message or error>` —
a string containing that code; code 0 is treated like an absent code. -/
theorem nonzero_code_failure (stringify : Json → String) (toolName : String)
    (body r : Json) (c : Int)
    (herr : jsTruthyOpt (getField body "error") = false)
    (hres : getField body "result" = some r)
    (hobj : structuredResult (some r) = true)
    (hcode : getField r "code" = some (.num c))
    (h0 : c ≠ 0) (h200 : c ≠ 200) :
    primaryStep stringify toolName (.ok body)
      = .failed (toolName ++ " returned code " ++ toString c ++ ": "
          ++ messageOrError (getField r "message")) := by
  have hfail : codeIsFailure (.num c) = true := by
    simp [codeIsFailure, jsTruthy, h0, h200]
  cases r with
  | obj kvs =>
    simp only [primaryStep]
    rw [herr]
    simp only [Bool.false_eq_true, if_false]
    rw [hres]
    show structuredStep stringify toolName (Json.obj kvs) = _
    simp only [structuredStep, hcode, hfail]
    simp [jsToStringOpt, jsToString]
  | arr xs => simp [getField] at hcode
  | null => simp [structuredResult] at hobj
  | bool b => simp [structuredResult] at hobj
  | num n => simp [structuredResult] at hobj
  | str s => simp [structuredResult] at hobj

/-- Witness: code 400 with message `rate limited`. -/
theorem nonzero_code_failure_witness :
    primaryStep stringify0 "tk"
        (.ok (.obj [("result",
          .obj [("code", Json.num 400), ("message", Json.str "rate limited")])]))
      = .failed ("tk" ++ " returned code " ++ toString (400 : Int) ++ ": "
          ++ messageOrError (getField
              (.obj [("code", Json.num 400), ("message", Json.str "rate limited")])
              "message")) :=
  nonzero_code_failure stringify0 "tk"
    (.obj [("result",
      .obj [("code", Json.num 400), ("message", Json.str "rate limited")])])
    (.obj [("code", Json.num 400), ("message", Json.str "rate limited")])
    400 rfl rfl rfl rfl (by decide) (by decide)

/-! ## C10 -/

/-- C10: on every structured primary success the rendered text is the
header plus the serialized payload passed through `truncateLarge`, and the
truncation is exact: a serialization of at most 50000 characters is
returned whole, a longer one is cut to exactly its first 50000 characters
with the fixed marker appended (likewise `truncateRaw` on the
unstructured success path, with its own fixed marker). -/
theorem success_rendering_truncation (stringify : Json → String)
    (toolName : String) (body r payload : Json) :
    ((jsTruthyOpt (getField body "error") = false) →
      (getField body "result" = some r) →
      structuredResult (some r) = true →
      (∀ c, getField r "code" = some c → codeIsFailure c = false) →
      getField r "data" = some payload →
      isEmptyJson payload = false →
      primaryStep stringify toolName (.ok body)
        = .success ("TikHub " ++ toolName ++ " result:\n\n"
            ++ truncateLarge (stringify payload)))
    ∧ ((stringify payload).length ≤ 50000 →
        truncateLarge (stringify payload) = stringify payload)
    ∧ (50000 < (stringify payload).length →
        truncateLarge (stringify payload)
          = (stringify payload).take 50000 ++ truncTagLarge)
    ∧ (∀ s : String, s.length ≤ 50000 → truncateRaw s = s)
    ∧ (∀ s : String, 50000 < s.length →
        truncateRaw s = s.take 50000 ++ truncTagRaw) := by
  refine ⟨?_, ?_, ?_, ?_, ?_⟩
  · intro herr hres hobj hcode hdata hne
    cases r with
    | obj kvs =>
      simp only [primaryStep]
      rw [herr]
      simp only [Bool.false_eq_true, if_false]
      rw [hres]
      show structuredStep stringify toolName (Json.obj kvs) = _
      simp only [structuredStep, hdata]
      rcases hc : getField (Json.obj kvs) "code" with _ | c2
      · simp only [hc, isEmptyData, hne, Bool.false_eq_true, if_false]
        cases payload with
        | null => simp [isEmptyJson] at hne
        | bool b => rfl
        | num n => rfl
        | str s => rfl
        | arr xs => rfl
        | obj kvs2 => rfl
      · have hcf := hcode c2 hc
        simp only [hc, hcf, isEmptyData, hne, Bool.false_eq_true, if_false]
        cases payload with
        | null => simp [isEmptyJson] at hne
        | bool b => rfl
        | num n => rfl
        | str s => rfl
        | arr xs => rfl
        | obj kvs2 => rfl
    | arr xs => simp [getField] at hdata
    | null => simp [structuredResult] at hobj
    | bool b => simp [structuredResult] at hobj
    | num n => simp [structuredResult] at hobj
    | str s => simp [structuredResult] at hobj
  · intro h
    simp [truncateLarge, Nat.not_lt.mpr h]
  · intro h
    simp [truncateLarge, h]
  · intro s h
    simp [truncateRaw, Nat.not_lt.mpr h]
  · intro s h
    simp [truncateRaw, h]

/-! ## C8 -/

/-- Every joined line list beginning with `a` renders with `a` as a prefix. -/
theorem joinLines_prefix (a : String) :
    ∀ l : List String, ∃ r, joinLines (a :: l) = a ++ r
  | [] => ⟨"", by simp [joinLines]⟩
  | b :: l => ⟨"\n" ++ joinLines (b :: l),
      by rw [joinLines_cons_cons, String.append_assoc]⟩

/-- C8: the fallback invoker builds its query as the platform label, a
space and the keyword when a label was derived, and just the keyword
otherwise; its single request asks for 5 results with enrichment enabled
and a 5000-character per-page cap; it returns unavailable (it is a total
function — no exception propagates) whenever the request throws or times
out (the `.error` oracle outcome) or returns absent or zero results; and
on success its rendered text starts with the fallback marker. -/
theorem fallbackWebSearch_contract (kw : String) (pf : Option String)
    (resp : Except Unit SearchData) :
    ((fallbackRequest kw pf).count = 5
      ∧ (fallbackRequest kw pf).enrich = true
      ∧ (fallbackRequest kw pf).max_chars = 5000
      ∧ (fallbackRequest kw pf).query =
          (match pf with | some p => p ++ " " ++ kw | none => kw))
    ∧ (∀ e : Unit, resp = .error e → fallbackWebSearch kw pf resp = none)
    ∧ (∀ d : SearchData, resp = .ok d →
        (d.results = none ∨ d.results = some []) →
        fallbackWebSearch kw pf resp = none)
    ∧ (∀ t : String, fallbackWebSearch kw pf resp = some t →
        ∃ rest, t = fallbackMarker ++ rest) := by
  refine ⟨⟨rfl, rfl, rfl, rfl⟩, ?_, ?_, ?_⟩
  · rintro e rfl; rfl
  · rintro d rfl h
    rcases h with h | h <;> simp [fallbackWebSearch, h]
  · intro t ht
    rcases resp with e | d
    · simp [fallbackWebSearch] at ht
    · simp only [fallbackWebSearch] at ht
      rcases hr : d.results with _ | rs

      · rw [hr] at ht; simp at ht
      · rw [hr] at ht
        by_cases he : rs.isEmpty
        · simp [he] at ht
        · simp only [he, Bool.false_eq_true, if_false, Option.some.injEq] at ht
          obtain ⟨rest, hrest⟩ := joinLines_prefix fallbackMarker
            (("Search: \"" ++ d.query ++ "\" (" ++ toString rs.length
              ++ " results via " ++ d.provider ++ ")") :: "" :: renderResults 0 rs)
          exact ⟨rest, by rw [← ht]; simpa using hrest⟩

/-- Witness: a thrown fallback request yields unavailable, and a concrete
successful fallback renders with the marker as a prefix. -/
theorem fallbackWebSearch_contract_witness :
    fallbackWebSearch "AI" (some "TikTok") (.error ()) = none :=
  (fallbackWebSearch_contract "AI" (some "TikTok") (.error ())).2.1 () rfl

/-! ## C1 -/

/-- An empty trace trivially orders fallback after classification. -/
theorem fac_nil : fallbackAfterClassify [] := by
  intro i q h
  simp at h

/-- A primary-then-classified trace (no fallback) trivially orders
fallback after classification. -/
theorem fac_two (f : Bool) (r : String) :
    fallbackAfterClassify [Event.primaryIssued, Event.classified f r] := by
  intro i q h
  cases i with
  | zero => simp at h
  | succ i =>
    cases i with
    | zero => simp at h
    | succ i => simp at h

/-- In a primary-classified-fallback trace every fallback request is
preceded by the classification event. -/
theorem fac_three (f : Bool) (r q0 : String) :
    fallbackAfterClassify
      [Event.primaryIssued, Event.classified f r, Event.fallbackIssued q0] := by
  intro i q h
  cases i with
  | zero => simp at h
  | succ i =>
    cases i with
    | zero => simp at h
    | succ i =>
      cases i with
      | zero => exact ⟨1, f, r, by omega, rfl⟩
      | succ i => simp at h

/-- C1: for every dispatch of either host (the stdio server taken with its
API key configured), the fallback search is invoked if and only if the
primary outcome was classified as a failure and a keyword was extracted
from the normalized arguments — never on a success classification, never
without a keyword — and every fallback event in the trace comes strictly
after a classification event. -/
theorem fallback_iff_classified_failure (parse : String → Option Json)
    (stringify : Json → String) (toolName : String) (rawArgs : Option Json)
    (primary : PrimaryOutcome) (fb : Except Unit SearchData) :
    (fallbackInvoked
        (pluginDispatch parse stringify toolName rawArgs primary fb).2
      ↔ classifiedFailure
          (pluginDispatch parse stringify toolName rawArgs primary fb).2
        ∧ keywordAvailable parse rawArgs)
    ∧ fallbackAfterClassify
        (pluginDispatch parse stringify toolName rawArgs primary fb).2
    ∧ (fallbackInvoked
        (mcpDispatch true parse stringify toolName rawArgs primary fb).2
      ↔ classifiedFailure
          (mcpDispatch true parse stringify toolName rawArgs primary fb).2
        ∧ keywordAvailable parse rawArgs)
    ∧ fallbackAfterClassify
        (mcpDispatch true parse stringify toolName rawArgs primary fb).2 := by
  rw [hosts_agree parse stringify toolName rawArgs primary fb]
  suffices h :
      (fallbackInvoked
          (pluginDispatch parse stringify toolName rawArgs primary fb).2
        ↔ classifiedFailure
            (pluginDispatch parse stringify toolName rawArgs primary fb).2
          ∧ keywordAvailable parse rawArgs)
      ∧ fallbackAfterClassify
          (pluginDispatch parse stringify toolName rawArgs primary fb).2 by
    exact ⟨h.1, h.2, h.1, h.2⟩
  rcases hn : normalizeArgs parse rawArgs with _ | args
  · have htr : (pluginDispatch parse stringify toolName rawArgs primary fb).2
        = [] := by
      simp [pluginDispatch, hn]
    rw [htr]
    constructor
    · simp [fallbackInvoked, classifiedFailure]
    · exact fac_nil
  · rcases hp : primaryStep stringify toolName primary with t | reason
    · -- primary success: no fallback, no failure classification
      have htr : (pluginDispatch parse stringify toolName rawArgs primary fb).2
          = [Event.primaryIssued, Event.classified false ""] := by
        simp [pluginDispatch, hn, hp]
      rw [htr]
      constructor
      · simp [fallbackInvoked, classifiedFailure]
      · exact fac_two false ""
    · rcases hk : extractKeyword args with _ | kw
      · -- failure but no keyword: no fallback
        have htr : (pluginDispatch parse stringify toolName rawArgs primary fb).2
            = [Event.primaryIssued, Event.classified true reason] := by
          simp [pluginDispatch, pluginFinish, hn, hp, hk]
        rw [htr]
        constructor
        · simp [fallbackInvoked, classifiedFailure, keywordAvailable, hn, hk]
        · exact fac_two true reason
      · -- failure with keyword: exactly one fallback, after classification
        have htr : (pluginDispatch parse stringify toolName rawArgs primary fb).2
            = [Event.primaryIssued, Event.classified true reason,
               Event.fallbackIssued
                 (fallbackQueryString kw (extractPlatform toolName))] := by
          cases hfb : fallbackWebSearch kw (extractPlatform toolName) fb <;>
            simp [pluginDispatch, pluginFinish, hn, hp, hk, hfb]
        rw [htr]
        constructor
        · constructor
          · intro _
            exact ⟨⟨reason, by simp⟩, ⟨args, kw, hn, hk⟩⟩
          · intro _
            exact ⟨fallbackQueryString kw (extractPlatform toolName), by simp⟩
        · exact fac_three true reason _

/-- Witness: the ordering property at a concrete dispatch. -/
theorem fallback_iff_classified_failure_witness :
    fallbackAfterClassify
      (pluginDispatch parseNone stringify0 "t" none (.thrown "boom")
        (.error ())).2 :=
  (fallback_iff_classified_failure parseNone stringify0 "t" none
    (.thrown "boom") (.error ())).2.1

/-- Witness: a small structured success renders header plus untruncated
serialization. -/
theorem success_rendering_truncation_witness :
    primaryStep stringify0 "tk"
        (.ok (.obj [("result", .obj [("data", .obj [("x", Json.num 1)])])]))
      = .success ("TikHub " ++ "tk" ++ " result:\n\n"
          ++ truncateLarge (stringify0 (.obj [("x", Json.num 1)]))) :=
  (success_rendering_truncation stringify0 "tk"
    (.obj [("result", .obj [("data", .obj [("x", Json.num 1)])])])
    (.obj [("data", .obj [("x", Json.num 1)])])
    (.obj [("x", Json.num 1)])).1
    rfl rfl rfl (fun c hc => Option.noConfusion hc) rfl rfl

end SearchStack
